import Mathlib

/-!
# Verification of the IELTS Speaking Simulator workflow

A shallow embedding of the application's client-side logic:

* the welcome-screen validation (`handleStart` in `WelcomeScreen.tsx`),
* the workflow state machine of `App.tsx` (`startTest`, `handleTestComplete`),
* the AI-gateway helpers of `services/geminiService.ts`
  (`generateChartImage`, `getPracticePlan`), with the external generative
  service represented by an oracle parameter,
* the test-taking flow of `TestScreen.tsx` (`TableRenderer`,
  `handleNextSpeakingQuestion`, `videoId`),
* the Markdown export of `EvaluationScreen.tsx` (`handleSaveAsMarkdown`).

JavaScript strings are modelled as Lean `String`s (lists of Unicode
scalars), with explicit helpers for the JavaScript behaviours the code
relies on: `String.prototype.trim`, `String.prototype.split`, the
UTF-16 `length` property, and the `x || d` idiom on strings.
Band scores (JavaScript numbers) are modelled as rationals; every
comparison performed by the code (`score < 7.5`) is exact on the
band-score grid, so no floating-point rounding is involved.
-/

/-! ## JavaScript string primitives -/

/-- The WhiteSpace and LineTerminator characters recognised by
`String.prototype.trim` (ECMA-262): tab, LF, VT, FF, CR, space, NBSP,
the Unicode space separators, LS, PS, and the BOM. -/
def jsWhitespace (c : Char) : Bool :=
  c = ' ' ∨ c = '\t' ∨ c = '\n' ∨ c = '\r' ∨
  c = Char.ofNat 0x0B ∨ c = Char.ofNat 0x0C ∨ c = Char.ofNat 0xA0 ∨
  c = Char.ofNat 0x1680 ∨ (0x2000 ≤ c.toNat ∧ c.toNat ≤ 0x200A) ∨
  c = Char.ofNat 0x2028 ∨ c = Char.ofNat 0x2029 ∨ c = Char.ofNat 0x202F ∨
  c = Char.ofNat 0x205F ∨ c = Char.ofNat 0x3000 ∨ c = Char.ofNat 0xFEFF

/-- `String.prototype.trim`: remove leading and trailing whitespace. -/
def jsTrim (s : String) : String :=
  ⟨((s.data.dropWhile jsWhitespace).reverse.dropWhile jsWhitespace).reverse⟩

/-- The JavaScript `length` property counts UTF-16 code units: scalars
outside the basic multilingual plane count twice. -/
def utf16Length (s : String) : ℕ :=
  (s.data.map fun c => if c.toNat < 0x10000 then 1 else 2).sum

/-- `String.prototype.split` with a single-character separator, on the
underlying character list.  `split` never drops empty fields and returns
`[""]` on the empty string. -/
def jsSplitChar (sep : Char) : List Char → List (List Char)
  | [] => [[]]
  | c :: cs =>
    let r := jsSplitChar sep cs
    if c = sep then [] :: r
    else match r with
      | h :: t => (c :: h) :: t
      | [] => [[c]]

/-- `String.prototype.split` with a single-character separator. -/
def splitJs (sep : Char) (s : String) : List String :=
  (jsSplitChar sep s.data).map fun l => ⟨l⟩

/-- The JavaScript string idiom `x || d` where `x` may be `undefined`
(`none`): an absent or empty string is replaced by the default. -/
def jsOrElse (x : Option String) (d : String) : String :=
  match x with
  | none => d
  | some v => if v = "" then d else v

/-! ## Welcome-screen validation (`handleStart`)

`WelcomeScreen.tsx` tests the video URL against
`/^(https?:\/\/)?(www\.)?(youtube\.com|youtu\.?be)\/.+$/` and requires a
transcript of at least 50 (UTF-16) characters after trimming. -/

/-- The characters excluded by the regular-expression metacharacter `.`
in JavaScript (LineTerminator: LF, CR, LS, PS). -/
def regexDotChar (c : Char) : Bool :=
  ¬(c = '\n' ∨ c = '\r' ∨ c = Char.ofNat 0x2028 ∨ c = Char.ofNat 0x2029)

/-- All words generated by the anchored prefix
`(https?:\/\/)?(www\.)?(youtube\.com|youtu\.?be)\/` of the YouTube URL
pattern.  Note that `youtu\.?be` matches both `youtu.be` and `youtube`. -/
def youtubePrefixes : List String :=
  ["", "http://", "https://"].flatMap fun p1 =>
    ["", "www."].flatMap fun p2 =>
      ["youtube.com/", "youtu.be/", "youtube/"].map fun p3 => p1 ++ p2 ++ p3

/-- `youtubeRegex.test videoUrl`: the whole string is one of the prefix
words followed by at least one character, none of which is a line
terminator (the `.+$` part of the pattern). -/
def youtubeRegexTest (s : String) : Bool :=
  youtubePrefixes.any fun p =>
    p.data.isPrefixOf s.data ∧
    (let rest := s.data.drop p.data.length
     rest ≠ [] ∧ rest.all regexDotChar)

/-- The test types offered by the welcome screen. -/
inductive TestType
  | full
  | listening
  | reading
  | writing
  | speaking
deriving DecidableEq, Repr

/-- Outcome of `handleStart` in `WelcomeScreen.tsx`: the component's
`validationError` state after the click, and the argument of the
`onStart` callback when it fires. -/
structure HandleStartResult where
  validationError : String
  started : Option (String × String × TestType)
deriving DecidableEq, Repr

/-- `handleStart` (`WelcomeScreen.tsx`): reject a URL that fails the
YouTube pattern, then a transcript shorter than 50 trimmed characters;
otherwise clear the validation error and invoke `onStart`. -/
def handleStart (videoUrl transcript : String) (testType : TestType) :
    HandleStartResult :=
  if ¬ youtubeRegexTest videoUrl then
    ⟨"Please enter a valid YouTube URL.", none⟩
  else if utf16Length (jsTrim transcript) < 50 then
    ⟨"Please paste the video transcript. It should be at least 50 characters long.",
      none⟩
  else
    ⟨"", some (videoUrl, transcript, testType)⟩

/-! ## Data model (`types.ts`) -/

/-- A per-criterion evaluation record. -/
structure ICriterion where
  criterion : String
  score : ℚ
  feedback : String
deriving DecidableEq, Repr

/-- A rewritten speaking answer. -/
structure IImprovedSpeakingAnswer where
  question : String
  improvedAnswer : String
deriving DecidableEq, Repr

/-- The Band-7.5 rewrites bundle. -/
structure IImprovedAnswers where
  writingTask1 : String
  writingTask2 : String
  speaking : List IImprovedSpeakingAnswer
deriving DecidableEq, Repr

/-- The evaluation returned by the AI gateway. -/
structure IEvaluation where
  overallBandScore : ℚ
  detailedScores : List ICriterion
  summary : String
  improvedAnswers : IImprovedAnswers
deriving DecidableEq, Repr

/-- One practice-plan item. -/
structure IPracticeItem where
  area : String
  title : String
  description : String
  exercise : String
deriving DecidableEq, Repr

/-- The chart kinds of `IChartData`. -/
inductive ChartType
  | barChart
  | lineChart
  | pieChart
  | table
deriving DecidableEq, Repr

/-- Structured chart description for Writing Task 1. -/
structure IChartData where
  type : ChartType
  title : String
  data : String
deriving DecidableEq, Repr

/-- A speaking cue card. -/
structure ICueCard where
  topic : String
  points : List String
deriving DecidableEq, Repr

/-- A speaking question (`IQuestion` in `types.ts`). -/
structure IQuestion where
  part : ℕ
  type : String
  question : String
  cueCard : Option ICueCard
deriving DecidableEq, Repr

/-- A listening question (with the generated answer key). -/
structure IListeningQuestion where
  question : String
  type : String
  answer : String
deriving DecidableEq, Repr

/-- A reading question (with the generated answer key). -/
structure IReadingQuestion where
  question : String
  type : String
  answer : String
deriving DecidableEq, Repr

/-- The listening section of a generated test. -/
structure IListeningSection where
  questions : List IListeningQuestion
deriving DecidableEq, Repr

/-- The reading section of a generated test. -/
structure IReadingSection where
  transcript : String
  questions : List IReadingQuestion
deriving DecidableEq, Repr

/-- Writing Task 1: prompt, chart description, lazily-attached image. -/
structure IWritingTask1 where
  prompt : String
  chartData : IChartData
  chartImage : Option String
deriving DecidableEq, Repr

/-- The writing section of a generated test. -/
structure IWritingSection where
  task1 : IWritingTask1
  task2 : String
deriving DecidableEq, Repr

/-- The generated exam (`IComprehensiveTest`). -/
structure IComprehensiveTest where
  listening : IListeningSection
  reading : IReadingSection
  writing : IWritingSection
  speaking : List IQuestion
deriving DecidableEq, Repr

/-- One `{question, answer}` speaking entry of the answer set. -/
structure SpeakingAnswer where
  question : String
  answer : String
deriving DecidableEq, Repr

/-- The two writing task answers. -/
structure WritingAnswers where
  task1 : String
  task2 : String
deriving DecidableEq, Repr

/-- The user's `answers` record of `TestScreen.tsx`: listening/reading
answers keyed by question index, two writing strings, and the ordered
speaking entries. -/
structure Answers where
  listening : List (ℕ × String)
  reading : List (ℕ × String)
  writing : WritingAnswers
  speaking : List SpeakingAnswer
deriving DecidableEq, Repr

/-- The initial `answers` state of `TestScreen.tsx`:
`{ listening: {}, reading: {}, writing: { task1: '', task2: '' }, speaking: [] }`. -/
def initialAnswers : Answers :=
  { listening := [], reading := [], writing := ⟨"", ""⟩, speaking := [] }

/-! ## Workflow state machine (`App.tsx`) -/

/-- The phases of `AppState` in `App.tsx`. -/
inductive AppState
  | welcome
  | generating
  | test
  | evaluating
  | results
deriving DecidableEq, Repr

/-- The state held by the `App` component. -/
structure AppSt where
  appState : AppState
  evaluation : Option IEvaluation
  practicePlan : Option (List IPracticeItem)
  comprehensiveTest : Option IComprehensiveTest
  userAnswers : Option Answers
  videoUrl : String
  error : Option String
  testType : Option TestType
deriving DecidableEq, Repr

/-- The error message set by `startTest`'s catch handler. -/
def generationErrorMsg : String :=
  "Failed to generate the test. Please check the video URL or try again."

/-- The error message set by `handleTestComplete`'s catch handler. -/
def evaluationErrorMsg : String :=
  "An error occurred during evaluation. Please try again."

/-- The synchronous prefix of `startTest` (`App.tsx`), i.e. everything
before its first `await`: enter the `generating` phase, clear the error,
and record the URL and test type. -/
def startTestEnter (st : AppSt) (url : String) (testType : TestType) : AppSt :=
  { st with appState := .generating, error := none, videoUrl := url,
            testType := some testType }

/-- A click on one of the welcome screen's start buttons: run
`handleStart`, and when it invokes `onStart` run the synchronous prefix
of `startTest`; a validation failure leaves the app state untouched. -/
def submitFromWelcome (st : AppSt) (url transcript : String)
    (testType : TestType) : AppSt :=
  match (handleStart url transcript testType).started with
  | some (u, _, ty) => startTestEnter st u ty
  | none => st

/-- `generateChartImage` (`geminiService.ts`), given the image list of the
image-generation response: return the first image's bytes, or throw
`"Failed to generate chart image."` when no image is returned. -/
def generateChartImage (generatedImages : List String) : Except String String :=
  match generatedImages with
  | b :: _ => Except.ok b
  | [] => Except.error "Failed to generate chart image."

/-- The full `startTest` flow of `App.tsx`, with the text-generation call
and the image-generation response as oracles: generate the test content;
if the chart is not a table, generate a chart image and attach it; any
failure falls back to `welcome` with the generation error message.
The truthiness guard `testContent.writing?.task1.chartData` always passes
because `chartData` is a required object of the schema. -/
def startTest
    (genOracle : String → String → TestType → Except String IComprehensiveTest)
    (imgOracle : IChartData → List String)
    (st : AppSt) (url transcript : String) (testType : TestType) : AppSt :=
  let st1 := startTestEnter st url testType
  match genOracle url transcript testType with
  | Except.error _ =>
      { st1 with error := some generationErrorMsg, appState := .welcome }
  | Except.ok testContent =>
      if testContent.writing.task1.chartData.type ≠ ChartType.table then
        match generateChartImage (imgOracle testContent.writing.task1.chartData) with
        | Except.error _ =>
            { st1 with error := some generationErrorMsg, appState := .welcome }
        | Except.ok img =>
            let tc2 : IComprehensiveTest :=
              { testContent with
                  writing := { testContent.writing with
                    task1 := { testContent.writing.task1 with chartImage := some img } } }
            { st1 with comprehensiveTest := some tc2, appState := .test }
      else
        { st1 with comprehensiveTest := some testContent, appState := .test }

/-- A call issued by `handleTestComplete` to the AI gateway. -/
inductive GatewayCall
  | evaluate (testContent : IComprehensiveTest) (answers : Answers)
  | practicePlan (evaluation : IEvaluation)
deriving DecidableEq, Repr

/-- Recogniser for evaluate calls. -/
def GatewayCall.isEvaluate : GatewayCall → Bool
  | .evaluate _ _ => true
  | _ => false

/-- Recogniser for practice-plan calls. -/
def GatewayCall.isPracticePlan : GatewayCall → Bool
  | .practicePlan _ => true
  | _ => false

/-- `handleTestComplete` (`App.tsx`), with the two AI-gateway operations
as oracles.  Returns the resulting app state together with the ordered
list of gateway calls issued.  For the subjective test types (writing,
speaking, full) it enters `evaluating`, calls evaluate then the practice
plan, and advances to `results`; a failure of either call returns to
`test` with the evaluation error message.  For the other test types it
clears the evaluation and practice plan and goes straight to `results`
with no gateway call. -/
def handleTestComplete
    (evalOracle : IComprehensiveTest → Answers → Except String IEvaluation)
    (planOracle : IEvaluation → Except String (List IPracticeItem))
    (st : AppSt) (answers : Answers) : AppSt × List GatewayCall :=
  match st.comprehensiveTest, st.testType with
  | some tc, some testType =>
    let st1 := { st with userAnswers := some answers, error := none }
    if testType = .writing ∨ testType = .speaking ∨ testType = .full then
      let st2 := { st1 with appState := .evaluating }
      match evalOracle tc answers with
      | Except.error _ =>
          ({ st2 with error := some evaluationErrorMsg, appState := .test },
           [.evaluate tc answers])
      | Except.ok evalResult =>
          let st3 := { st2 with evaluation := some evalResult }
          match planOracle evalResult with
          | Except.error _ =>
              ({ st3 with error := some evaluationErrorMsg, appState := .test },
               [.evaluate tc answers, .practicePlan evalResult])
          | Except.ok practiceResult =>
              ({ st3 with practicePlan := some practiceResult,
                          appState := .results },
               [.evaluate tc answers, .practicePlan evalResult])
    else
      ({ st1 with evaluation := none, practicePlan := none,
                  appState := .results }, [])
  | _, _ =>
      ({ st with error := some "Test content is missing. Please restart.",
                 appState := .welcome }, [])

/-! ## Test screen mounting (`TestScreen.tsx` and `App.tsx`) -/

/-- The section pointer of `TestScreen.tsx`. -/
inductive TestSection
  | listening
  | reading
  | writing
  | speaking
deriving DecidableEq, Repr

/-- `getInitialSection` (`TestScreen.tsx`): `full` starts at listening,
a single-section test starts at its own section. -/
def getInitialSection : TestType → TestSection
  | .full => .listening
  | .listening => .listening
  | .reading => .reading
  | .writing => .writing
  | .speaking => .speaking

/-- The local state of a `TestScreen` component instance. -/
structure TestScreenSt where
  currentSection : TestSection
  answers : Answers
  currentSpeakingQuestionIndex : ℕ
  transcript : String
deriving DecidableEq, Repr

/-- The state of a freshly mounted `TestScreen`: the `useState`
initialisers of `TestScreen.tsx`. -/
def mountTestScreen (testType : TestType) : TestScreenSt :=
  { currentSection := getInitialSection testType,
    answers := initialAnswers,
    currentSpeakingQuestionIndex := 0,
    transcript := "" }

/-- Modelled from React rendering semantics for `renderContent` in
`App.tsx`: a `TestScreen` element is rendered only in the `test` phase,
and leaving that phase (to `evaluating`) unmounts it, so re-entering
`test` mounts a fresh instance whose `useState` hooks hold the
initialiser values again. -/
def renderedTestScreen (st : AppSt) : Option TestScreenSt :=
  match st.appState, st.testType with
  | .test, some testType => some (mountTestScreen testType)
  | _, _ => none

/-! ## Practice plan derivation (`getPracticePlan`, `geminiService.ts`) -/

/-- The content of the outbound practice-plan request: the prompt embeds
the overall score and the weak criteria (with their scores and feedback),
and asks for three exercises against `practicePlanSchema`. -/
structure PracticeRequest where
  overallScore : ℚ
  weaknesses : List ICriterion
deriving DecidableEq, Repr

/-- The fixed "maintain excellence" item returned locally when no
criterion scores below 7.5. -/
def maintainExcellenceItem : IPracticeItem :=
  { area := "Overall Excellence",
    title := "Maintain Your High Standard",
    description := "Your performance is already at a high level. The key now is to maintain consistency and continue practicing with a wide range of topics to stay sharp.",
    exercise := "Challenge yourself with complex abstract topics. Record yourself speaking for 2 minutes on topics like 'The future of artificial intelligence' or 'The role of art in society', then self-evaluate." }

/-- `getPracticePlan` (`geminiService.ts`), with the external service as
an oracle mapping the outbound request to the parsed response items.
Returns the items handed to the caller, paired with the outbound request
when one was sent.  The code filters `detailedScores` for scores below
7.5; with no weakness it short-circuits to the fixed item, otherwise it
sends the weaknesses and returns whatever item list the response parses
to. -/
def getPracticePlan (oracle : PracticeRequest → List IPracticeItem)
    (evaluation : IEvaluation) : List IPracticeItem × Option PracticeRequest :=
  let weaknesses := evaluation.detailedScores.filter fun s => s.score < 7.5
  if weaknesses.length = 0 then
    ([maintainExcellenceItem], none)
  else
    let req : PracticeRequest := ⟨evaluation.overallBandScore, weaknesses⟩
    (oracle req, some req)

/-! ## Table rendering (`TableRenderer`, `TestScreen.tsx`) -/

/-- What the table renderer produces: the invalid-data paragraph, or a
table with a header row and body rows. -/
inductive TableRendering
  | invalid
  | table (headers : List String) (body : List (List String))
deriving DecidableEq, Repr

/-- `TableRenderer` (`TestScreen.tsx`): split the raw chart data on
newlines, drop blank lines, require a header line plus at least one data
row, and split every kept line on commas, trimming each cell. -/
def TableRenderer (data : String) : TableRendering :=
  let rows := (splitJs '\n' data).filter fun row => jsTrim row ≠ ""
  if rows.length < 2 then .invalid
  else
    match rows with
    | [] => .invalid
    | r0 :: rest =>
        .table ((splitJs ',' r0).map jsTrim)
          (rest.map fun row => (splitJs ',' row).map jsTrim)

/-! ## Speaking flow (`handleNextSpeakingQuestion`, `TestScreen.tsx`) -/

/-- The slice of `TestScreen` state that the speaking flow touches: the
accumulated speaking entries, the question pointer, and the transcript
buffer. -/
structure SpeakingScreenSt where
  speakingAnswers : List SpeakingAnswer
  currentSpeakingQuestionIndex : ℕ
  transcript : String
deriving DecidableEq, Repr

/-- `handleNextSpeakingQuestion` (`TestScreen.tsx`): with no question at
the pointer it returns early; otherwise it snapshots the buffer as the
answer to the current question and either signals completion with the
whole list (`Sum.inr`, the `onTestComplete` call on the last question)
or advances the pointer and clears the buffer.  Stopping the recording
does not change the buffer, so it is left implicit. -/
def handleNextSpeakingQuestion (speaking : List IQuestion)
    (st : SpeakingScreenSt) : SpeakingScreenSt ⊕ List SpeakingAnswer :=
  match speaking[st.currentSpeakingQuestionIndex]? with
  | none => Sum.inl st
  | some q =>
      let newAnswer : SpeakingAnswer := ⟨q.question, st.transcript⟩
      let updatedSpeakingAnswers := st.speakingAnswers ++ [newAnswer]
      if st.currentSpeakingQuestionIndex = speaking.length - 1 then
        Sum.inr updatedSpeakingAnswers
      else
        Sum.inl { speakingAnswers := updatedSpeakingAnswers,
                  currentSpeakingQuestionIndex := st.currentSpeakingQuestionIndex + 1,
                  transcript := "" }

/-- A speaking session: before each advance the environment (recording
plus manual edits) leaves `bufs.head` in the transcript buffer, then the
user clicks the advance button.  Stops either when the flow signals
completion or when the buffer list runs out. -/
def runSpeaking (speaking : List IQuestion) (bufs : List String)
    (st : SpeakingScreenSt) : SpeakingScreenSt ⊕ List SpeakingAnswer :=
  match bufs with
  | [] => Sum.inl st
  | b :: rest =>
      match handleNextSpeakingQuestion speaking { st with transcript := b } with
      | Sum.inl st2 => runSpeaking speaking rest st2
      | Sum.inr final => Sum.inr final

/-- The initial speaking-flow state of a mounted `TestScreen`. -/
def initialSpeakingSt : SpeakingScreenSt :=
  { speakingAnswers := [], currentSpeakingQuestionIndex := 0, transcript := "" }

/-! ## Markdown export (`handleSaveAsMarkdown`, `EvaluationScreen.tsx`) -/

/-- `Number.prototype.toFixed(1)` for the band-score range: round to one
decimal place (half away from zero is irrelevant on the 0.5 grid) and
print with exactly one digit after the point. -/
def toFixed1 (q : ℚ) : String :=
  let n : ℤ := ⌊q * 10 + 1 / 2⌋
  let a := n.natAbs
  let sign := if n < 0 then "-" else ""
  sign ++ toString (a / 10) ++ "." ++ toString (a % 10)

/-- The four main-skill criterion names. -/
def mainSkillNames : List String := ["Listening", "Reading", "Writing", "Speaking"]

/-- `mainScores` (`EvaluationScreen.tsx`):
`evaluation?.detailedScores.filter(s => [...].includes(s.criterion)) || []`. -/
def mainScores (evaluation : Option IEvaluation) : List ICriterion :=
  match evaluation with
  | some ev => ev.detailedScores.filter fun s => mainSkillNames.contains s.criterion
  | none => []

/-- `detailedCriteria` (`EvaluationScreen.tsx`): the detailed
(non-main-skill) criteria. -/
def detailedCriteria (evaluation : Option IEvaluation) : List ICriterion :=
  match evaluation with
  | some ev => ev.detailedScores.filter fun s => ¬ mainSkillNames.contains s.criterion
  | none => []

/-- One piece appended to `markdownContent` by `handleSaveAsMarkdown`.
The three tagged constructors mark the interpolations the export claims
are about; everything else is `text`. -/
inductive MdPiece
  | text (s : String)
  | overall (s : String)
  | feedback (s : String)
  | exercise (s : String)
deriving DecidableEq, Repr

/-- The string a piece contributes to the document. -/
def MdPiece.str : MdPiece → String
  | .text s => s
  | .overall s => s
  | .feedback s => s
  | .exercise s => s

/-- The string of an `overall` piece. -/
def overallPartOf : MdPiece → Option String
  | .overall s => some s
  | _ => none

/-- The string of a `feedback` piece. -/
def feedbackPartOf : MdPiece → Option String
  | .feedback s => some s
  | _ => none

/-- The string of an `exercise` piece. -/
def exercisePartOf : MdPiece → Option String
  | .exercise s => some s
  | _ => none

/-- The pieces appended by `handleSaveAsMarkdown`
(`EvaluationScreen.tsx`), in source order.  The `evaluation?.improvedAnswers`
guard reduces to `evaluation` being present, since `improvedAnswers` is a
required object of the evaluation schema. -/
def mdPieces (evaluation : Option IEvaluation)
    (practicePlan : Option (List IPracticeItem))
    (userAnswers : Answers) (testContent : IComprehensiveTest) : List MdPiece :=
  [.text "# IELTS Evaluation Report\n\n"]
  ++ (match evaluation with
      | some ev =>
        [.text "## Overall Band Score: ", .overall (toFixed1 ev.overallBandScore),
         .text "\n\n",
         .text "| Section   | Score |\n",
         .text "|-----------|-------|\n"]
        ++ ((mainScores evaluation).flatMap fun score =>
             [.text ("| " ++ score.criterion ++ " | " ++ toFixed1 score.score ++ " |\n")])
        ++ [.text "\n",
            .text "## Examiner's Summary\n\n",
            .text (ev.summary ++ "\n\n"),
            .text "## Detailed Feedback\n\n"]
        ++ ((detailedCriteria evaluation).flatMap fun item =>
             [.text ("### " ++ item.criterion ++ ": " ++ toFixed1 item.score ++ "\n"),
              .feedback item.feedback,
              .text "\n\n"])
      | none => [])
  ++ (match evaluation with
      | some ev =>
        [.text "## Path to Band 7.5: Model Answers\n\n",
         .text "### Writing Task 1\n\n#### Question\n\n",
         .text (testContent.writing.task1.prompt ++ "\n\n"),
         .text "#### Your Answer\n\n",
         .text ("```\n" ++ jsOrElse (some userAnswers.writing.task1) "No answer provided." ++ "\n```\n\n"),
         .text "#### Model Answer (Band 7.5)\n\n",
         .text ("```\n" ++ ev.improvedAnswers.writingTask1 ++ "\n```\n\n"),
         .text "### Writing Task 2\n\n#### Question\n\n",
         .text (testContent.writing.task2 ++ "\n\n"),
         .text "#### Your Answer\n\n",
         .text ("```\n" ++ jsOrElse (some userAnswers.writing.task2) "No answer provided." ++ "\n```\n\n"),
         .text "#### Model Answer (Band 7.5)\n\n",
         .text ("```\n" ++ ev.improvedAnswers.writingTask2 ++ "\n```\n\n")]
        ++ (ev.improvedAnswers.speaking.enum.flatMap fun p =>
             [.text ("### Speaking Question: \"" ++ p.2.question ++ "\"\n\n#### Your Answer\n\n"),
              .text ("```\n" ++ jsOrElse ((userAnswers.speaking[p.1]?).map SpeakingAnswer.answer) "No answer provided." ++ "\n```\n\n"),
              .text "#### Model Answer (Band 7.5)\n\n",
              .text ("```\n" ++ p.2.improvedAnswer ++ "\n```\n\n")])
      | none => [])
  ++ (match practicePlan with
      | some plan =>
        [.text "## Your Personalized Practice Plan\n\n"]
        ++ (plan.flatMap fun item =>
             [.text ("### " ++ item.title ++ "\n\n"),
              .text ("**Focus Area:** " ++ item.area ++ "\n\n"),
              .text (item.description ++ "\n\n"),
              .text "**Exercise:**\n",
              .text "```\n", .exercise item.exercise, .text "\n```\n\n"])
      | none => [])

/-- `handleSaveAsMarkdown` (`EvaluationScreen.tsx`): the assembled
document, built by appending each piece in order (the `+=` chain). -/
def handleSaveAsMarkdown (evaluation : Option IEvaluation)
    (practicePlan : Option (List IPracticeItem))
    (userAnswers : Answers) (testContent : IComprehensiveTest) : String :=
  (mdPieces evaluation practicePlan userAnswers testContent).foldl
    (fun acc p => acc ++ p.str) ""

/-! ## Video id extraction (`videoId`, `TestScreen.tsx`)

The `new URL(...)` constructor, `hostname`, `pathname` and
`searchParams.get` are the WHATWG URL API.  The parser below models the
absolute-URL subset this application can meet: scheme parsing, the
special-scheme authority rules, userinfo/port stripping, host
lowercasing, and `application/x-www-form-urlencoded` query parsing with
bytewise percent-decoding.  Percent-encoded multi-byte UTF-8 sequences,
IPv6 host brackets and dot-segment path normalisation are not modelled. -/

/-- A parsed URL record: the fields `videoId` reads. -/
structure URLRec where
  scheme : String
  hostname : String
  pathname : String
  searchParams : List (String × String)
deriving DecidableEq, Repr

/-- Hex digit value. -/
def hexVal (c : Char) : Option ℕ :=
  if '0' ≤ c ∧ c ≤ '9' then some (c.toNat - 48)
  else if 'a' ≤ c ∧ c ≤ 'f' then some (c.toNat - 87)
  else if 'A' ≤ c ∧ c ≤ 'F' then some (c.toNat - 55)
  else none

/-- `application/x-www-form-urlencoded` decoding of one token: `+`
becomes a space and `%XX` becomes the byte `XX`; a malformed escape is
kept literally. -/
def formDecode : List Char → List Char
  | [] => []
  | '+' :: rest => ' ' :: formDecode rest
  | '%' :: a :: b :: rest =>
      match hexVal a, hexVal b with
      | some x, some y => Char.ofNat (16 * x + y) :: formDecode rest
      | _, _ => '%' :: formDecode (a :: b :: rest)
  | c :: rest => c :: formDecode rest

/-- Parse a query string (without the leading `?`) into name/value
pairs, skipping empty `&`-segments as the URLSearchParams parser does. -/
def parseQuery (q : List Char) : List (String × String) :=
  ((jsSplitChar '&' q).filter fun seg => seg ≠ []).map fun seg =>
    let name := seg.takeWhile fun c => c ≠ '='
    let value := (seg.drop name.length).drop 1
    (⟨formDecode name⟩, ⟨formDecode value⟩)

/-- The query part of what follows the path: the characters between `?`
and `#`/end. -/
def queryOf (l : List Char) : List Char :=
  match l with
  | '?' :: rest => rest.takeWhile fun c => c ≠ '#'
  | _ => []

/-- The special schemes of the WHATWG URL standard. -/
def specialSchemes : List String := ["http", "https", "ws", "wss", "ftp", "file"]

/-- Scheme characters after the first. -/
def isSchemeChar (c : Char) : Bool := c.isAlpha ∨ c.isDigit ∨ c = '+' ∨ c = '-' ∨ c = '.'

/-- Parse the authority-and-path part of a URL (after the scheme and any
slashes): split off the authority, strip userinfo and port, lowercase the
host, and default the path of an authority URL to `/`.  An empty host is
an error for the special non-file schemes. -/
def parseAuthority (scheme : String) (l : List Char) : Option URLRec :=
  let authority := l.takeWhile fun c => ¬(c = '/' ∨ c = '?' ∨ c = '#')
  let afterAuth := l.drop authority.length
  let afterAt :=
    if authority.contains '@' then (authority.reverse.takeWhile fun c => c ≠ '@').reverse
    else authority
  let host := afterAt.takeWhile fun c => c ≠ ':'
  if host = [] ∧ specialSchemes.contains scheme ∧ scheme ≠ "file" then none
  else
    let rawPath := afterAuth.takeWhile fun c => ¬(c = '?' ∨ c = '#')
    let afterPath := afterAuth.drop rawPath.length
    let pathname : List Char := if rawPath = [] then ['/'] else rawPath
    some { scheme := scheme,
           hostname := ⟨host.map Char.toLower⟩,
           pathname := ⟨pathname⟩,
           searchParams := parseQuery (queryOf afterPath) }

/-- `new URL(input)` for an absolute URL: strip tab/newline and
surrounding C0-control-or-space, parse the scheme, then parse either an
authority (mandatory for special schemes, introduced by `//` otherwise)
or an opaque path.  Returns `none` where the constructor throws. -/
def parseURL (s : String) : Option URLRec :=
  let l := ((s.data.filter fun c => ¬(c = '\t' ∨ c = '\n' ∨ c = '\r')).dropWhile
              fun c => c.toNat ≤ 0x20).reverse.dropWhile (fun c => c.toNat ≤ 0x20)
            |>.reverse
  match l with
  | [] => none
  | c :: _ =>
    if ¬ c.isAlpha then none
    else
      let scheme := (l.takeWhile isSchemeChar).map Char.toLower
      let rest := l.drop scheme.length
      match rest with
      | ':' :: afterColon =>
        let schemeS : String := ⟨scheme⟩
        if specialSchemes.contains schemeS then
          parseAuthority schemeS (afterColon.dropWhile fun c => c = '/' ∨ c = '\\')
        else if afterColon.take 2 = ['/', '/'] then
          parseAuthority schemeS (afterColon.drop 2)
        else
          let path := afterColon.takeWhile fun c => ¬(c = '?' ∨ c = '#')
          let afterPath := afterColon.drop path.length
          some { scheme := schemeS, hostname := "", pathname := ⟨path⟩,
                 searchParams := parseQuery (queryOf afterPath) }
      | _ => none

/-- `url.searchParams.get(name)`: the value of the first pair with the
given name, or null. -/
def searchParamsGet (params : List (String × String)) (name : String) :
    Option String :=
  (params.find? fun p => p.1 = name).map fun p => p.2

/-- `videoId` (`TestScreen.tsx`): parse the video URL; on failure return
`''`; for a `youtu.be` host return the path without its leading slash;
otherwise return the `v` query parameter or `''`. -/
def videoId (videoUrl : String) : String :=
  match parseURL videoUrl with
  | none => ""
  | some url =>
      if url.hostname = "youtu.be" then url.pathname.drop 1
      else jsOrElse (searchParamsGet url.searchParams "v") ""

/-! ## Concrete sample data for the closed witness statements -/

/-- A transcript of more than 50 characters. -/
def sampleTranscript : String :=
  "This video explains how coastal erosion reshapes shorelines over decades."

/-- The app state of a fresh session. -/
def welcomeSt : AppSt :=
  { appState := .welcome, evaluation := none, practicePlan := none,
    comprehensiveTest := none, userAnswers := none, videoUrl := "",
    error := none, testType := none }

/-- A small generated test used by the witnesses. -/
def sampleTest : IComprehensiveTest :=
  { listening := ⟨[⟨"What reshapes shorelines?", "short-answer", "erosion"⟩]⟩,
    reading := ⟨sampleTranscript, [⟨"Is erosion slow?", "short-answer", "yes"⟩]⟩,
    writing := ⟨⟨"Describe the chart.", ⟨ChartType.barChart, "Erosion by decade", "1980: 2, 1990: 3"⟩, none⟩,
               "Discuss coastal management."⟩,
    speaking := [⟨1, "introduction", "Do you live near the sea?", none⟩,
                 ⟨1, "introduction", "Have you seen a beach change?", none⟩] }

/-- Sample answers with a non-trivial speaking entry. -/
def sampleAnswers : Answers :=
  { listening := [(0, "erosion")], reading := [(0, "yes")],
    writing := ⟨"The chart shows erosion rising.", "Management should adapt."⟩,
    speaking := [⟨"Do you live near the sea?", "Yes, very close."⟩,
                 ⟨"Have you seen a beach change?", "It narrowed a lot."⟩] }

/-- The app state right before test completion in a speaking-only run. -/
def testPhaseSt : AppSt :=
  { welcomeSt with
    appState := .test
    comprehensiveTest := some sampleTest
    testType := some TestType.speaking
    videoUrl := "https://youtu.be/x" }

/-- A sample evaluation with one weak detailed criterion. -/
def sampleEvaluation : IEvaluation :=
  { overallBandScore := 6.5,
    detailedScores :=
      [⟨"Speaking", 6.5, "Good overall."⟩,
       ⟨"Speaking - Fluency and Coherence", 6, "Frequent pauses."⟩,
       ⟨"Speaking - Lexical Resource", 8, "Wide vocabulary."⟩],
    summary := "A solid performance with room to grow.",
    improvedAnswers :=
      ⟨"Model task 1.", "Model task 2.",
       [⟨"Do you live near the sea?", "Indeed, I reside by the coast."⟩]⟩ }

/-- A sample evaluation in which every criterion scores at least 7.5. -/
def excellentEvaluation : IEvaluation :=
  { sampleEvaluation with
    detailedScores := [⟨"Speaking", 8, "Excellent."⟩,
                       ⟨"Speaking - Fluency and Coherence", 7.5, "Fluent."⟩] }

/-- A sample practice plan. -/
def samplePlan : List IPracticeItem :=
  [⟨"Fluency", "Daily monologues", "Speak for two minutes daily.", "Record a two-minute talk."⟩]

/-! ## C1: welcome-screen validation gates the generation phase -/

/-- C1: a submission of (videoUrl, transcript) advances the workflow from
`welcome` to the `generating` phase if and only if the URL passes the
YouTube pattern and the trimmed transcript has length at least 50; when
either check fails, the app state is unchanged (still `welcome`), a
non-empty validation message is set, and `onStart` is not invoked. -/
theorem handleStart_gates_generation (st : AppSt) (videoUrl transcript : String)
    (testType : TestType) (hw : st.appState = .welcome) :
    ((submitFromWelcome st videoUrl transcript testType).appState = .generating
      ↔ (youtubeRegexTest videoUrl = true ∧ 50 ≤ utf16Length (jsTrim transcript)))
    ∧ ((handleStart videoUrl transcript testType).started = none ↔
        ¬(youtubeRegexTest videoUrl = true ∧ 50 ≤ utf16Length (jsTrim transcript)))
    ∧ ((handleStart videoUrl transcript testType).started = none →
        submitFromWelcome st videoUrl transcript testType = st
        ∧ (submitFromWelcome st videoUrl transcript testType).appState = .welcome
        ∧ (handleStart videoUrl transcript testType).validationError ≠ "") := by
  unfold submitFromWelcome handleStart startTestEnter
  by_cases hr : youtubeRegexTest videoUrl = true
  · by_cases hl : utf16Length (jsTrim transcript) < 50
    · simp [hr, hl, hw]
    · simp [hr, hl, hw]
      omega
  · simp [hr, hw]

/-- Witness for C1 at concrete inputs: the sample URL and transcript pass
both checks and the submission enters `generating`; a malformed URL keeps
the state at `welcome`. -/
theorem handleStart_gates_generation_witness :
    (submitFromWelcome welcomeSt "https://www.youtube.com/watch?v=p1yCOdp2vs0"
        sampleTranscript TestType.full).appState = .generating
    ∧ submitFromWelcome welcomeSt "not a url" sampleTranscript TestType.full
        = welcomeSt := by
  constructor
  · exact (handleStart_gates_generation welcomeSt
      "https://www.youtube.com/watch?v=p1yCOdp2vs0" sampleTranscript .full
      rfl).1.mpr ⟨by decide, by decide⟩
  · exact ((handleStart_gates_generation welcomeSt "not a url" sampleTranscript
      .full rfl).2.2 (by decide)).1

/-! ## C2: objective test types go straight to results -/

/-- C2: for a listening-only or reading-only test with generated content
present, completing the section moves the workflow directly to `results`
with the evaluation and practice plan cleared to `null`, and no gateway
call (evaluate or practice plan) is issued. -/
theorem handleTestComplete_objective
    (evalOracle : IComprehensiveTest → Answers → Except String IEvaluation)
    (planOracle : IEvaluation → Except String (List IPracticeItem))
    (st : AppSt) (answers : Answers) (tc : IComprehensiveTest) (tt : TestType)
    (hc : st.comprehensiveTest = some tc) (ht : st.testType = some tt)
    (hobj : tt = .listening ∨ tt = .reading) :
    (handleTestComplete evalOracle planOracle st answers).1.appState = .results
    ∧ (handleTestComplete evalOracle planOracle st answers).1.evaluation = none
    ∧ (handleTestComplete evalOracle planOracle st answers).1.practicePlan = none
    ∧ (handleTestComplete evalOracle planOracle st answers).2 = [] := by
  rcases hobj with h | h <;>
    simp [handleTestComplete, hc, ht, h]

/-- Witness for C2: a concrete listening-only completion. -/
theorem handleTestComplete_objective_witness :
    ({ testPhaseSt with testType := some TestType.listening } : AppSt).testType
        = some TestType.listening
    ∧ (handleTestComplete (fun _ _ => Except.error "net") (fun _ => Except.error "net")
        { testPhaseSt with testType := some TestType.listening } sampleAnswers).1.appState
        = .results := by
  refine ⟨rfl, ?_⟩
  exact (handleTestComplete_objective (fun _ _ => Except.error "net")
    (fun _ => Except.error "net") _ sampleAnswers sampleTest .listening rfl rfl
    (Or.inl rfl)).1

/-! ## C3: subjective test types issue evaluate then practice plan -/

/-- C3: for a writing, speaking or full test with content present,
completion issues the evaluate call first; at most one practice-plan call
follows it, and exactly one evaluate call ever occurs.  The workflow
reaches `results` exactly when both calls succeed, and in that case the
call trace is precisely evaluate followed by the practice-plan call on
the evaluation just obtained. -/
theorem handleTestComplete_subjective_calls
    (evalOracle : IComprehensiveTest → Answers → Except String IEvaluation)
    (planOracle : IEvaluation → Except String (List IPracticeItem))
    (st : AppSt) (answers : Answers) (tc : IComprehensiveTest) (tt : TestType)
    (hc : st.comprehensiveTest = some tc) (ht : st.testType = some tt)
    (hsub : tt = .writing ∨ tt = .speaking ∨ tt = .full) :
    ((handleTestComplete evalOracle planOracle st answers).2.countP
        GatewayCall.isEvaluate = 1)
    ∧ ((handleTestComplete evalOracle planOracle st answers).2.countP
        GatewayCall.isPracticePlan ≤ 1)
    ∧ ((handleTestComplete evalOracle planOracle st answers).2.take 1
        = [GatewayCall.evaluate tc answers])
    ∧ ((handleTestComplete evalOracle planOracle st answers).1.appState = .results
        ↔ ∃ ev pp, evalOracle tc answers = Except.ok ev ∧ planOracle ev = Except.ok pp)
    ∧ (∀ ev pp, evalOracle tc answers = Except.ok ev → planOracle ev = Except.ok pp →
        (handleTestComplete evalOracle planOracle st answers).2
          = [GatewayCall.evaluate tc answers, GatewayCall.practicePlan ev]
        ∧ (handleTestComplete evalOracle planOracle st answers).1.appState = .results) := by
  cases hev : evalOracle tc answers with
  | error e =>
      rcases hsub with h | h | h <;>
        simp [handleTestComplete, hc, ht, h, hev, GatewayCall.isEvaluate,
          GatewayCall.isPracticePlan, List.countP_cons]
  | ok ev =>
      cases hpl : planOracle ev with
      | error e =>
          rcases hsub with h | h | h <;>
            (simp [handleTestComplete, hc, ht, h, hev, hpl, GatewayCall.isEvaluate,
               GatewayCall.isPracticePlan, List.countP_cons]
             rintro ev2 pp rfl hcon
             simp [hpl] at hcon)
      | ok pp =>
          rcases hsub with h | h | h <;>
            (simp [handleTestComplete, hc, ht, h, hev, hpl, GatewayCall.isEvaluate,
               GatewayCall.isPracticePlan, List.countP_cons]
             exact fun ev2 pp2 h2 _ => h2)

/-- Witness for C3: a concrete speaking-only completion with succeeding
oracles issues exactly the two calls in order and reaches `results`. -/
theorem handleTestComplete_subjective_calls_witness :
    (handleTestComplete (fun _ _ => Except.ok sampleEvaluation)
        (fun _ => Except.ok samplePlan) testPhaseSt sampleAnswers).2
      = [GatewayCall.evaluate sampleTest sampleAnswers,
         GatewayCall.practicePlan sampleEvaluation]
    ∧ (handleTestComplete (fun _ _ => Except.ok sampleEvaluation)
        (fun _ => Except.ok samplePlan) testPhaseSt sampleAnswers).1.appState
      = .results := by
  exact (handleTestComplete_subjective_calls (fun _ _ => Except.ok sampleEvaluation)
    (fun _ => Except.ok samplePlan) testPhaseSt sampleAnswers sampleTest .speaking
    rfl rfl (Or.inr (Or.inl rfl))).2.2.2.2 sampleEvaluation samplePlan rfl rfl

/-! ## C4: practice-plan derivation -/

/-- C4 counterexample: with a weak criterion present the service is
called, but the returned item count is whatever the parsed response
holds — here an empty response array is returned unchanged, so the
function does not return exactly three items. -/
theorem getPracticePlan_three_items_counterexample :
    (sampleEvaluation.detailedScores.filter fun s => s.score < 7.5) ≠ []
    ∧ (getPracticePlan (fun _ => []) sampleEvaluation).2 ≠ none
    ∧ (getPracticePlan (fun _ => []) sampleEvaluation).1.length ≠ 3 := by
  norm_num [getPracticePlan, sampleEvaluation, List.filter]
  exact ⟨by simp, by simp⟩

/-- C4 (amended): when every detailed criterion scores at least 7.5,
`getPracticePlan` returns exactly the one fixed "maintain excellence"
item and makes no external call; otherwise it makes an external call
whose outbound request carries exactly the criteria scoring below 7.5
(and the overall score), and returns exactly the item list parsed from
the service response — the code does not enforce a three-item count. -/
theorem getPracticePlan_spec (oracle : PracticeRequest → List IPracticeItem)
    (evaluation : IEvaluation) :
    ((∀ s ∈ evaluation.detailedScores, (7.5 : ℚ) ≤ s.score) →
      getPracticePlan oracle evaluation = ([maintainExcellenceItem], none))
    ∧ ((∃ s ∈ evaluation.detailedScores, s.score < 7.5) →
      (getPracticePlan oracle evaluation).2 =
        some ⟨evaluation.overallBandScore,
              evaluation.detailedScores.filter fun s => s.score < 7.5⟩
      ∧ (getPracticePlan oracle evaluation).1 =
        oracle ⟨evaluation.overallBandScore,
                evaluation.detailedScores.filter fun s => s.score < 7.5⟩) := by
  constructor
  · intro h
    have hfil : evaluation.detailedScores.filter (fun s => s.score < 7.5) = [] := by
      rw [List.filter_eq_nil_iff]
      intro s hs
      simpa using not_lt.mpr (h s hs)
    simp [getPracticePlan, hfil]
  · rintro ⟨s, hs, hlt⟩
    have hmem : s ∈ evaluation.detailedScores.filter (fun x => x.score < 7.5) := by
      rw [List.mem_filter]
      exact ⟨hs, by simpa using hlt⟩
    have hne : ¬ (evaluation.detailedScores.filter
        (fun x => x.score < 7.5)).length = 0 := by
      simpa [List.length_eq_zero] using List.ne_nil_of_mem hmem
    simp [getPracticePlan, hne]

/-- Witness for C4 (amended): an all-high evaluation short-circuits to
the fixed item; an evaluation with weaknesses returns the oracle's
response list. -/
theorem getPracticePlan_spec_witness :
    getPracticePlan (fun _ => samplePlan) excellentEvaluation
      = ([maintainExcellenceItem], none)
    ∧ (getPracticePlan (fun _ => samplePlan) sampleEvaluation).1 = samplePlan := by
  constructor
  · refine (getPracticePlan_spec (fun _ => samplePlan) excellentEvaluation).1 ?_
    intro s hs
    simp [excellentEvaluation, sampleEvaluation] at hs
    rcases hs with rfl | rfl <;> norm_num
  · refine ((getPracticePlan_spec (fun _ => samplePlan) sampleEvaluation).2 ?_).2
    exact ⟨⟨"Speaking - Fluency and Coherence", 6, "Frequent pauses."⟩,
      by simp [sampleEvaluation], by norm_num⟩

/-! ## C5: the table renderer -/

/-- C5: the documented chart data parses to the expected header and body
rows, and any input with fewer than two non-blank lines renders the
invalid-table paragraph (the function is total, so it never crashes). -/
theorem TableRenderer_spec :
    TableRenderer "Year,Revenue\n2022,5M\n2023,8M"
      = TableRendering.table ["Year", "Revenue"] [["2022", "5M"], ["2023", "8M"]]
    ∧ ∀ data : String,
        ((splitJs '\n' data).filter fun row => jsTrim row ≠ "").length < 2 →
        TableRenderer data = TableRendering.invalid := by
  constructor
  · decide
  · intro data h
    simp only [TableRenderer]
    rw [if_pos h]

/-- Witness for C5: a single-line input has fewer than two non-blank
lines and renders as invalid. -/
theorem TableRenderer_spec_witness :
    ((splitJs '\n' "Year,Revenue").filter fun row => jsTrim row ≠ "").length < 2
    ∧ TableRenderer "Year,Revenue" = TableRendering.invalid :=
  ⟨by decide, TableRenderer_spec.2 "Year,Revenue" (by decide)⟩

/-! ## C6: the speaking flow finalizes one entry per question -/

/-- Invariant of the speaking loop: starting at pointer `i` with the
remaining buffers exactly filling the remaining questions, the run
completes and appends one snapshot per remaining question. -/
theorem runSpeaking_go (bufs : List String) :
    ∀ (speaking : List IQuestion) (acc : List SpeakingAnswer) (i : ℕ) (t : String),
      bufs ≠ [] → i + bufs.length = speaking.length →
      runSpeaking speaking bufs ⟨acc, i, t⟩ =
        Sum.inr (acc ++ List.zipWith (fun q b => SpeakingAnswer.mk q.question b)
                  (speaking.drop i) bufs) := by
  induction bufs with
  | nil => intro _ _ _ _ h _; exact absurd rfl h
  | cons b rest ih =>
      intro speaking acc i t _ hlen
      have hi : i < speaking.length := by
        simp only [List.length_cons] at hlen; omega
      have hq : speaking[i]? = some speaking[i] := List.getElem?_eq_getElem hi
      have hdrop : speaking.drop i = speaking[i] :: speaking.drop (i + 1) :=
        List.drop_eq_getElem_cons hi
      have hunfold : runSpeaking speaking (b :: rest) ⟨acc, i, t⟩
          = match handleNextSpeakingQuestion speaking ⟨acc, i, b⟩ with
            | Sum.inl st2 => runSpeaking speaking rest st2
            | Sum.inr final => Sum.inr final := rfl
      cases rest with
      | nil =>
          have hlast : i = speaking.length - 1 := by
            simp only [List.length_cons, List.length_nil] at hlen; omega
          have hstep : handleNextSpeakingQuestion speaking ⟨acc, i, b⟩
              = Sum.inr (acc ++ [⟨(speaking[i]).question, b⟩]) := by
            simp only [handleNextSpeakingQuestion, hq]
            rw [if_pos hlast]
          rw [hunfold, hstep, hdrop]
          simp only [List.zipWith_cons_cons, List.zipWith_nil_right]
      | cons b2 rest2 =>
          have hne2 : ¬ i = speaking.length - 1 := by
            simp only [List.length_cons] at hlen; omega
          have hstep : handleNextSpeakingQuestion speaking ⟨acc, i, b⟩
              = Sum.inl ⟨acc ++ [⟨(speaking[i]).question, b⟩], i + 1, ""⟩ := by
            simp only [handleNextSpeakingQuestion, hq]
            rw [if_neg hne2]
          have hrec := ih speaking (acc ++ [⟨(speaking[i]).question, b⟩]) (i + 1) ""
            (by simp) (by simp only [List.length_cons] at hlen ⊢; omega)
          rw [hunfold, hstep]
          dsimp only
          rw [hrec, hdrop, List.append_assoc]
          rfl

/-- C6: for a non-empty speaking question list exactly filled by the
sequence of transcript-buffer snapshots, advancing past the last question
signals completion (`onTestComplete`) with exactly one entry per
question, the i-th entry pairing the i-th question's text with the i-th
buffer content. -/
theorem handleNextSpeakingQuestion_finalizes (speaking : List IQuestion)
    (bufs : List String) (hne : speaking ≠ [])
    (hlen : bufs.length = speaking.length) :
    runSpeaking speaking bufs initialSpeakingSt =
      Sum.inr (List.zipWith (fun q b => SpeakingAnswer.mk q.question b) speaking bufs)
    ∧ (List.zipWith (fun q b => SpeakingAnswer.mk q.question b) speaking bufs).length
        = speaking.length := by
  have hb : bufs ≠ [] := by
    intro hnil
    apply hne
    rw [hnil] at hlen
    exact List.length_eq_zero.mp hlen.symm
  constructor
  · have h := runSpeaking_go bufs speaking [] 0 "" hb (by omega)
    simpa [initialSpeakingSt] using h
  · simp [hlen]

/-- Witness for C6: the two-question sample run finalizes with both
question/answer pairs. -/
theorem handleNextSpeakingQuestion_finalizes_witness :
    runSpeaking sampleTest.speaking ["Yes, very close.", "It narrowed a lot."]
        initialSpeakingSt
      = Sum.inr [⟨"Do you live near the sea?", "Yes, very close."⟩,
                 ⟨"Have you seen a beach change?", "It narrowed a lot."⟩] := by
  have h := (handleNextSpeakingQuestion_finalizes sampleTest.speaking
    ["Yes, very close.", "It narrowed a lot."] (by simp [sampleTest])
    (by simp [sampleTest])).1
  simpa [sampleTest] using h

/-! ## C7: evaluation failure and the fate of entered answers -/

/-- C7 counterexample: in a concrete speaking-only run whose evaluate
call fails, the workflow does return to `test` with the evaluation error
message and keeps the submitted answers in `userAnswers` — but the test
screen rendered on re-entering `test` is a fresh mount whose local answer
state is the empty initial answer set, not the answers the user had
entered, so the entered answers are not preserved for resubmission. -/
theorem handleTestComplete_failure_counterexample :
    ((handleTestComplete (fun _ _ => Except.error "network")
        (fun _ => Except.error "network") testPhaseSt sampleAnswers).1.appState
      = AppState.test)
    ∧ ((handleTestComplete (fun _ _ => Except.error "network")
        (fun _ => Except.error "network") testPhaseSt sampleAnswers).1.userAnswers
      = some sampleAnswers)
    ∧ ((renderedTestScreen (handleTestComplete (fun _ _ => Except.error "network")
        (fun _ => Except.error "network") testPhaseSt sampleAnswers).1).map
          TestScreenSt.answers
      = some initialAnswers)
    ∧ initialAnswers ≠ sampleAnswers := by
  refine ⟨?_, ?_, ?_, ?_⟩ <;>
    simp [handleTestComplete, testPhaseSt, welcomeSt, renderedTestScreen,
      mountTestScreen, getInitialSection, initialAnswers, sampleAnswers]

/-- C7 (amended): for a subjective test with content present, a failure
of the evaluate call or of the practice-plan call returns the workflow to
`test` with the evaluation error message; the submitted answers are kept
in the workflow's `userAnswers` field, but the test screen rendered on
re-entering `test` is a freshly mounted instance whose local answer state
is the empty initial answer set, so the previously entered answers are
not restored into the test screen for resubmission. -/
theorem handleTestComplete_failure_returns_to_test
    (evalOracle : IComprehensiveTest → Answers → Except String IEvaluation)
    (planOracle : IEvaluation → Except String (List IPracticeItem))
    (st : AppSt) (answers : Answers) (tc : IComprehensiveTest) (tt : TestType)
    (hc : st.comprehensiveTest = some tc) (ht : st.testType = some tt)
    (hsub : tt = .writing ∨ tt = .speaking ∨ tt = .full)
    (hfail : (∃ e, evalOracle tc answers = Except.error e)
      ∨ (∃ ev e, evalOracle tc answers = Except.ok ev
          ∧ planOracle ev = Except.error e)) :
    ((handleTestComplete evalOracle planOracle st answers).1.appState = .test)
    ∧ ((handleTestComplete evalOracle planOracle st answers).1.error
        = some evaluationErrorMsg)
    ∧ ((handleTestComplete evalOracle planOracle st answers).1.userAnswers
        = some answers)
    ∧ (renderedTestScreen (handleTestComplete evalOracle planOracle st answers).1
        = some (mountTestScreen tt))
    ∧ (mountTestScreen tt).answers = initialAnswers := by
  rcases hfail with ⟨e, he⟩ | ⟨ev, e, hev, hpl⟩
  · rcases hsub with h | h | h <;>
      simp [handleTestComplete, hc, ht, h, he, renderedTestScreen, mountTestScreen]
  · rcases hsub with h | h | h <;>
      simp [handleTestComplete, hc, ht, h, hev, hpl, renderedTestScreen,
        mountTestScreen]

/-- Witness for C7 (amended) at the concrete failing run. -/
theorem handleTestComplete_failure_returns_to_test_witness :
    ((handleTestComplete (fun _ _ => Except.error "network")
        (fun _ => Except.error "network") testPhaseSt sampleAnswers).1.error
      = some evaluationErrorMsg)
    ∧ (renderedTestScreen (handleTestComplete (fun _ _ => Except.error "network")
        (fun _ => Except.error "network") testPhaseSt sampleAnswers).1
      = some (mountTestScreen TestType.speaking)) := by
  have h := handleTestComplete_failure_returns_to_test
    (fun _ _ => Except.error "network") (fun _ => Except.error "network")
    testPhaseSt sampleAnswers sampleTest .speaking rfl rfl (Or.inr (Or.inl rfl))
    (Or.inl ⟨"network", rfl⟩)
  exact ⟨h.2.1, h.2.2.2.1⟩

/-! ## C8: generation failure is fatal and falls back to welcome -/

/-- C8: in a fresh session, if the test-content generation call fails,
or if it succeeds with a non-table chart but the chart-image service
returns no image (so `generateChartImage` throws), then `startTest`
returns from `generating` to `welcome` with the generation error message
and stores no test content at all — in particular there is no fallback
to a text-only Task 1 when only the chart image failed. -/
theorem startTest_failure_falls_back
    (genOracle : String → String → TestType → Except String IComprehensiveTest)
    (imgOracle : IChartData → List String)
    (st : AppSt) (url transcript : String) (tt : TestType)
    (hfresh : st.comprehensiveTest = none) :
    (∀ e, genOracle url transcript tt = Except.error e →
      (startTest genOracle imgOracle st url transcript tt).appState = .welcome
      ∧ (startTest genOracle imgOracle st url transcript tt).error
          = some generationErrorMsg
      ∧ (startTest genOracle imgOracle st url transcript tt).comprehensiveTest
          = none)
    ∧ (∀ tc, genOracle url transcript tt = Except.ok tc →
        tc.writing.task1.chartData.type ≠ ChartType.table →
        imgOracle tc.writing.task1.chartData = [] →
        (startTest genOracle imgOracle st url transcript tt).appState = .welcome
        ∧ (startTest genOracle imgOracle st url transcript tt).error
            = some generationErrorMsg
        ∧ (startTest genOracle imgOracle st url transcript tt).comprehensiveTest
            = none) := by
  constructor
  · intro e he
    simp [startTest, startTestEnter, he, hfresh]
  · intro tc htc hnt himg
    simp [startTest, startTestEnter, htc, hnt, himg, generateChartImage, hfresh]

/-- Witness for C8: a failing text-generation call, and a successful one
whose bar-chart image generation returns no image, both land in `welcome`
with the generation error. -/
theorem startTest_failure_falls_back_witness :
    (startTest (fun _ _ _ => Except.error "bad json") (fun _ => []) welcomeSt
        "https://youtu.be/x" sampleTranscript TestType.full).appState = .welcome
    ∧ (startTest (fun _ _ _ => Except.ok sampleTest) (fun _ => []) welcomeSt
        "https://youtu.be/x" sampleTranscript TestType.full).error
      = some generationErrorMsg
    ∧ (startTest (fun _ _ _ => Except.ok sampleTest) (fun _ => []) welcomeSt
        "https://youtu.be/x" sampleTranscript TestType.full).comprehensiveTest
      = none := by
  refine ⟨?_, ?_, ?_⟩
  · exact ((startTest_failure_falls_back (fun _ _ _ => Except.error "bad json")
      (fun _ => []) welcomeSt "https://youtu.be/x" sampleTranscript .full rfl).1
      "bad json" rfl).1
  · exact ((startTest_failure_falls_back (fun _ _ _ => Except.ok sampleTest)
      (fun _ => []) welcomeSt "https://youtu.be/x" sampleTranscript .full rfl).2
      sampleTest rfl (by simp [sampleTest]) rfl).2.1
  · exact ((startTest_failure_falls_back (fun _ _ _ => Except.ok sampleTest)
      (fun _ => []) welcomeSt "https://youtu.be/x" sampleTranscript .full rfl).2
      sampleTest rfl (by simp [sampleTest]) rfl).2.2

/-! ## C9: the Markdown export contains each datum exactly once -/

/-- The character list of the assembled document is the accumulator's
characters followed by the concatenation of the pieces' characters. -/
theorem mdRender_data (l : List MdPiece) (init : String) :
    (l.foldl (fun acc p => acc ++ p.str) init).data
      = init.data ++ (l.map fun p => p.str.data).flatten := by
  induction l generalizing init with
  | nil => simp
  | cons p rest ih =>
      simp [List.foldl_cons, ih, String.data_append, List.append_assoc]

/-- Every piece of the list occurs inside the rendered document. -/
theorem mdPiece_infix (l : List MdPiece) (p : MdPiece) (hp : p ∈ l) :
    (MdPiece.str p).data <:+:
      (l.foldl (fun acc q => acc ++ q.str) "").data := by
  rw [mdRender_data]
  have h1 : (MdPiece.str p).data ∈ l.map fun q => q.str.data :=
    List.mem_map_of_mem _ hp
  obtain ⟨s, t, heq⟩ := List.infix_of_mem_flatten h1
  exact ⟨s, t, by
    rw [show ("" : String).data = ([] : List Char) from rfl, List.nil_append]
    exact heq⟩

/-- An `overall` piece renders exactly its payload string. -/
theorem overallPartOf_str (p : MdPiece) (s : String)
    (h : overallPartOf p = some s) : MdPiece.str p = s := by
  cases p <;> simp_all [overallPartOf, MdPiece.str]

/-- A `feedback` piece renders exactly its payload string. -/
theorem feedbackPartOf_str (p : MdPiece) (s : String)
    (h : feedbackPartOf p = some s) : MdPiece.str p = s := by
  cases p <;> simp_all [feedbackPartOf, MdPiece.str]

/-- An `exercise` piece renders exactly its payload string. -/
theorem exercisePartOf_str (p : MdPiece) (s : String)
    (h : exercisePartOf p = some s) : MdPiece.str p = s := by
  cases p <;> simp_all [exercisePartOf, MdPiece.str]

/-- A string selected by a tag recogniser occurs in the document. -/
theorem mdPiece_str_infix_of_filterMap (l : List MdPiece)
    (g : MdPiece → Option String)
    (hg : ∀ p s, g p = some s → MdPiece.str p = s)
    (s : String) (hs : s ∈ l.filterMap g) :
    s.data <:+: (l.foldl (fun acc q => acc ++ q.str) "").data := by
  obtain ⟨p, hpl, hps⟩ := List.mem_filterMap.mp hs
  have h := mdPiece_infix l p hpl
  rwa [hg p s hps] at h

/-- Filtering with a constantly-`none` selector yields nothing. -/
theorem filterMap_const_none {α : Type u} {β : Type v} (l : List α) :
    l.filterMap (fun _ => (none : Option β)) = [] := by
  induction l <;> simp_all [List.filterMap_cons]

/-- Flat-mapping to the empty list yields nothing. -/
theorem flatMap_const_nil {α : Type u} {β : Type v} (l : List α) :
    (l.flatMap fun _ => ([] : List β)) = [] := by
  induction l <;> simp_all

/-- C9: with an evaluation and a practice plan present at export time,
the assembled Markdown document carries exactly one `overall`-tagged
rendering of the overall band score, exactly one `feedback`-tagged piece
per detailed (non-main-skill) criterion — in order, carrying exactly the
criteria's feedback strings — and exactly one `exercise`-tagged piece per
practice item; and each of those strings occurs in the document text. -/
theorem handleSaveAsMarkdown_roundtrip (ev : IEvaluation)
    (pp : List IPracticeItem) (userAnswers : Answers)
    (testContent : IComprehensiveTest) :
    ((mdPieces (some ev) (some pp) userAnswers testContent).filterMap overallPartOf
      = [toFixed1 ev.overallBandScore])
    ∧ ((mdPieces (some ev) (some pp) userAnswers testContent).filterMap feedbackPartOf
      = (detailedCriteria (some ev)).map ICriterion.feedback)
    ∧ ((mdPieces (some ev) (some pp) userAnswers testContent).filterMap exercisePartOf
      = pp.map IPracticeItem.exercise)
    ∧ ((toFixed1 ev.overallBandScore).data <:+:
        (handleSaveAsMarkdown (some ev) (some pp) userAnswers testContent).data)
    ∧ (∀ c ∈ detailedCriteria (some ev), c.feedback.data <:+:
        (handleSaveAsMarkdown (some ev) (some pp) userAnswers testContent).data)
    ∧ (∀ item ∈ pp, item.exercise.data <:+:
        (handleSaveAsMarkdown (some ev) (some pp) userAnswers testContent).data) := by
  have h1 : (mdPieces (some ev) (some pp) userAnswers testContent).filterMap
      overallPartOf = [toFixed1 ev.overallBandScore] := by
    simp [mdPieces, List.filterMap_append, List.filterMap_flatMap,
      Function.comp_def, overallPartOf, filterMap_const_none, flatMap_const_nil]
  have h2 : (mdPieces (some ev) (some pp) userAnswers testContent).filterMap
      feedbackPartOf = (detailedCriteria (some ev)).map ICriterion.feedback := by
    simp [mdPieces, List.filterMap_append, List.filterMap_flatMap,
      Function.comp_def, feedbackPartOf, ← List.map_eq_flatMap,
      filterMap_const_none, flatMap_const_nil]
  have h3 : (mdPieces (some ev) (some pp) userAnswers testContent).filterMap
      exercisePartOf = pp.map IPracticeItem.exercise := by
    simp [mdPieces, List.filterMap_append, List.filterMap_flatMap,
      Function.comp_def, exercisePartOf, ← List.map_eq_flatMap,
      filterMap_const_none, flatMap_const_nil]
  refine ⟨h1, h2, h3, ?_, ?_, ?_⟩
  · exact mdPiece_str_infix_of_filterMap _ overallPartOf overallPartOf_str _
      (by rw [h1]; exact List.mem_singleton_self _)
  · intro c hc
    exact mdPiece_str_infix_of_filterMap _ feedbackPartOf feedbackPartOf_str _
      (by rw [h2]; exact List.mem_map_of_mem _ hc)
  · intro item hitem
    exact mdPiece_str_infix_of_filterMap _ exercisePartOf exercisePartOf_str _
      (by rw [h3]; exact List.mem_map_of_mem _ hitem)

/-- Witness for C9 at the sample evaluation and plan. -/
theorem handleSaveAsMarkdown_roundtrip_witness :
    ((mdPieces (some sampleEvaluation) (some samplePlan) sampleAnswers
        sampleTest).filterMap feedbackPartOf
      = ["Frequent pauses.", "Wide vocabulary."])
    ∧ ("Record a two-minute talk.".data <:+:
        (handleSaveAsMarkdown (some sampleEvaluation) (some samplePlan)
          sampleAnswers sampleTest).data) := by
  have h := handleSaveAsMarkdown_roundtrip sampleEvaluation samplePlan
    sampleAnswers sampleTest
  constructor
  · rw [h.2.1]
    decide
  · exact h.2.2.2.2.2 ⟨"Fluency", "Daily monologues", "Speak for two minutes daily.",
      "Record a two-minute talk."⟩ (by simp [samplePlan])

/-! ## C10: video-id extraction is total -/

/-- C10: `videoId` is a total function (it never throws): when the URL
fails to parse the result is the empty string; when the parsed hostname
is `youtu.be` the result is the pathname without its leading slash;
otherwise it is the `v` query parameter, or the empty string when that
parameter is absent (the `|| ''` fallback). -/
theorem videoId_total_spec (s : String) :
    (parseURL s = none → videoId s = "")
    ∧ (∀ u, parseURL s = some u →
        (u.hostname = "youtu.be" → videoId s = u.pathname.drop 1)
        ∧ (u.hostname ≠ "youtu.be" →
            videoId s = jsOrElse (searchParamsGet u.searchParams "v") "")) := by
  refine ⟨fun h => by simp [videoId, h], fun u hu => ⟨fun hh => ?_, fun hh => ?_⟩⟩
  · simp [videoId, hu, hh]
  · simp [videoId, hu, hh]

/-- Witness for C10: an unparseable string yields `''`; a `youtu.be`
short link yields the path segment; a `watch?v=` URL yields the `v`
parameter. -/
theorem videoId_total_spec_witness :
    videoId "notaurl" = ""
    ∧ videoId "https://youtu.be/p1yCOdp2vs0?si=pKV47XzCq44ERMGO" = "p1yCOdp2vs0"
    ∧ videoId "https://www.youtube.com/watch?v=dQw4w9WgXcQ" = "dQw4w9WgXcQ" := by
  refine ⟨?_, ?_, ?_⟩
  · exact (videoId_total_spec "notaurl").1 (by decide)
  · have h := ((videoId_total_spec
      "https://youtu.be/p1yCOdp2vs0?si=pKV47XzCq44ERMGO").2
      ⟨"https", "youtu.be", "/p1yCOdp2vs0", [("si", "pKV47XzCq44ERMGO")]⟩
      (by decide)).1 rfl
    exact h.trans (by decide)
  · have h := ((videoId_total_spec "https://www.youtube.com/watch?v=dQw4w9WgXcQ").2
      ⟨"https", "www.youtube.com", "/watch", [("v", "dQw4w9WgXcQ")]⟩
      (by decide)).2 (by decide)
    exact h.trans (by decide)
